import Mathlib

/-
Verification of the session-orchestration and connection-lifecycle state
machine of the esptool-react library.

The development shallowly embeds:
  - src/src/context/esploaderReducer.ts : the Action type, the initial
    state and the reducer (pure function, translated directly);
  - src/src/context/ESPLoaderProvider.tsx : the async operations
    (connect, disconnect, program, eraseFlash, startConsole, stopConsole)
    modelled as functions that, given the state snapshot observed at call
    start, the mutable ref cells, and an environment describing the
    outcomes of the external collaborators (serial port, engine), return
    the sequence of effects the operation performs.  Under the single
    threaded cooperative scheduling model each dispatch applies the
    reducer immediately, so the observed state snapshots are the scan of
    the reducer over the dispatched actions.

JavaScript string primitives used by the source (includes, toLowerCase,
endsWith) are given small executable counterparts on Lean strings.
-/

namespace EsptoolReact

/-- Tests whether the second character list is a contiguous sublist
starting at the head of the first (JS startsWith on char lists). -/
def charsHavePre : List Char → List Char → Bool
  | [], _ => true
  | _ :: _, [] => false
  | p :: ps, c :: cs => p == c && charsHavePre ps cs

/-- Tests whether the pattern occurs contiguously anywhere in the text. -/
def charsContain : List Char → List Char → Bool
  | [], pat => pat.isEmpty
  | c :: rest, pat => charsHavePre pat (c :: rest) || charsContain rest pat

/-- Model of JS String.prototype.includes. -/
def jsIncludes (s pat : String) : Bool :=
  charsContain s.data pat.data

/-- Model of JS String.prototype.toLowerCase, for the ASCII messages
used by the connection code. -/
def jsToLower (s : String) : String :=
  String.mk (s.data.map Char.toLower)

/-- Model of JS endsWith applied to a single newline: true exactly when
the last character is a newline (false on the empty string). -/
def endsWithNewlineB (s : String) : Bool :=
  match s.data.getLast? with
  | some c => c == '\n'
  | none => false

/-- consoleParity field values ("none" | "even" | "odd"). -/
inductive Parity
  | noneP
  | even
  | odd
deriving DecidableEq

/-- FlashProgress record from src/src/types.ts. -/
structure FlashProgress where
  fileIndex : Nat
  fileName : String
  written : Nat
  total : Nat
deriving DecidableEq

/-- ESPLoaderState from src/src/types.ts.  The opaque object-or-null
fields (transport, esploader) are modelled by presence booleans; error
payloads (Error | string | null) are modelled as optional strings. -/
structure ESPLoaderState where
  transport : Bool
  esploader : Bool
  chip : Option String
  isConnected : Bool
  isConsoleConnected : Bool
  isLoading : Bool
  isFlashing : Bool
  isErasing : Bool
  error : Option String
  terminalOutput : List String
  flashProgress : Option FlashProgress
  baudrate : Nat
  consoleBaudrate : Nat
  consoleDataBits : Nat
  consoleStopBits : Nat
  consoleParity : Parity
  debugLogging : Bool
deriving DecidableEq

/-- initialESPLoaderState from src/src/context/esploaderReducer.ts. -/
def initialESPLoaderState : ESPLoaderState where
  transport := false
  esploader := false
  chip := none
  isConnected := false
  isConsoleConnected := false
  isLoading := false
  isFlashing := false
  isErasing := false
  error := none
  terminalOutput := []
  flashProgress := none
  baudrate := 115200
  consoleBaudrate := 115200
  consoleDataBits := 8
  consoleStopBits := 1
  consoleParity := Parity.noneP
  debugLogging := false

/-- Action type from src/src/context/esploaderReducer.ts. -/
inductive Action
  | SET_TRANSPORT (payload : Bool)
  | SET_ESPLOADER (payload : Bool)
  | SET_CHIP (payload : Option String)
  | SET_IS_CONNECTED (payload : Bool)
  | SET_IS_CONSOLE_CONNECTED (payload : Bool)
  | SET_IS_LOADING (payload : Bool)
  | SET_IS_FLASHING (payload : Bool)
  | SET_IS_ERASING (payload : Bool)
  | SET_ERROR (payload : Option String)
  | ADD_TERMINAL_OUTPUT (payload : String)
  | APPEND_TERMINAL_OUTPUT (payload : String)
  | SET_TERMINAL_OUTPUT (payload : List String)
  | CLEAR_TERMINAL_OUTPUT
  | SET_FLASH_PROGRESS (payload : Option FlashProgress)
  | SET_BAUDRATE (payload : Nat)
  | SET_CONSOLE_BAUDRATE (payload : Nat)
  | SET_CONSOLE_DATA_BITS (payload : Nat)
  | SET_CONSOLE_STOP_BITS (payload : Nat)
  | SET_CONSOLE_PARITY (payload : Parity)
  | SET_DEBUG_LOGGING (payload : Bool)
  | RESET_STATE
deriving DecidableEq

/-- esploaderReducer from src/src/context/esploaderReducer.ts,
translated case by case.  The APPEND_TERMINAL_OUTPUT case mirrors the
source condition terminalOutput.length > 0 and the slice(0, -1) append;
the RESET_STATE case mirrors the spread of the initial state with the
six configuration fields preserved. -/
def esploaderReducer (state : ESPLoaderState) (action : Action) : ESPLoaderState :=
  match action with
  | .SET_TRANSPORT payload => { state with transport := payload }
  | .SET_ESPLOADER payload => { state with esploader := payload }
  | .SET_CHIP payload => { state with chip := payload }
  | .SET_IS_CONNECTED payload =>
      { state with isConnected := payload, isLoading := false, error := none }
  | .SET_IS_CONSOLE_CONNECTED payload =>
      { state with isConsoleConnected := payload, isLoading := false, error := none }
  | .SET_IS_LOADING payload => { state with isLoading := payload }
  | .SET_IS_FLASHING payload =>
      { state with isFlashing := payload, error := none }
  | .SET_IS_ERASING payload =>
      { state with isErasing := payload, error := none }
  | .SET_ERROR payload =>
      { state with error := payload, isLoading := false, isFlashing := false,
                   isErasing := false }
  | .ADD_TERMINAL_OUTPUT payload =>
      { state with terminalOutput := state.terminalOutput ++ [payload] }
  | .APPEND_TERMINAL_OUTPUT payload =>
      { state with terminalOutput :=
          if state.terminalOutput.length > 0 &&
             !(endsWithNewlineB (state.terminalOutput.getLastD "")) then
            state.terminalOutput.dropLast ++
              [state.terminalOutput.getLastD "" ++ payload]
          else
            state.terminalOutput ++ [payload] }
  | .SET_TERMINAL_OUTPUT payload => { state with terminalOutput := payload }
  | .CLEAR_TERMINAL_OUTPUT => { state with terminalOutput := [] }
  | .SET_FLASH_PROGRESS payload => { state with flashProgress := payload }
  | .SET_BAUDRATE payload => { state with baudrate := payload }
  | .SET_CONSOLE_BAUDRATE payload => { state with consoleBaudrate := payload }
  | .SET_CONSOLE_DATA_BITS payload => { state with consoleDataBits := payload }
  | .SET_CONSOLE_STOP_BITS payload => { state with consoleStopBits := payload }
  | .SET_CONSOLE_PARITY payload => { state with consoleParity := payload }
  | .SET_DEBUG_LOGGING payload => { state with debugLogging := payload }
  | .RESET_STATE =>
      { initialESPLoaderState with
          baudrate := state.baudrate
          consoleBaudrate := state.consoleBaudrate
          consoleDataBits := state.consoleDataBits
          consoleStopBits := state.consoleStopBits
          consoleParity := state.consoleParity
          debugLogging := state.debugLogging }

/-- Observable effects performed by the provider operations: reducer
dispatches, timer delays (in milliseconds), and calls on the external
collaborators (engine, transports, ports, reader). -/
inductive Event
  | dispatch (a : Action)
  | delay (ms : Nat)
  | engineMain (attempt : Nat)
  | engineWriteFlash
  | engineEraseFlashCall
  | programTransportDisconnect
  | programPortClose
  | requestPortCall
  | consoleReaderCancel
  | consoleTransportDisconnect
  | consolePortClose
  | consolePortOpen
  | launchReadLoop
deriving DecidableEq

/-- A dispatch applies the reducer; every other effect leaves the
session state unchanged. -/
def applyEvent (s : ESPLoaderState) : Event → ESPLoaderState
  | .dispatch a => esploaderReducer s a
  | _ => s

/-- Final state after a sequence of effects. -/
def runEvents (s : ESPLoaderState) (evs : List Event) : ESPLoaderState :=
  evs.foldl applyEvent s

/-- All observed state snapshots along a sequence of effects, the
pre-state included. -/
def snapshotsAux (s : ESPLoaderState) : List Event → List ESPLoaderState
  | [] => [s]
  | e :: evs => s :: snapshotsAux (applyEvent s e) evs

/-- The mutable ref cells of ESPLoaderProvider (useRef), modelled by
presence booleans for the handle refs and plain booleans for the two
control flags. -/
structure Refs where
  programDevice : Bool
  programTransport : Bool
  esploaderInstance : Bool
  consoleDevice : Bool
  consoleTransport : Bool
  consoleReader : Bool
  keepConsoleReading : Bool
  consoleReadingInProgress : Bool
deriving DecidableEq

/-- Refs at provider mount: every handle null, both flags false. -/
def initialRefs : Refs where
  programDevice := false
  programTransport := false
  esploaderInstance := false
  consoleDevice := false
  consoleTransport := false
  consoleReader := false
  keepConsoleReading := false
  consoleReadingInProgress := false

/-- Environment of a stopConsole call: whether the console device port
reports an open readable stream at close time. -/
structure StopConsoleEnv where
  consoleDeviceReadable : Bool

/-- stopConsole from ESPLoaderProvider.tsx (lines 184-221): clears the
two control flags, cancels the reader when present (errors tolerated),
disconnects the console transport when present (errors tolerated),
closes the console port when present and open (errors tolerated),
nulls the console refs, and dispatches console-connected false. -/
def stopConsoleRun (r : Refs) (env : StopConsoleEnv) : List Event × Refs :=
  let r1 := { r with keepConsoleReading := false, consoleReadingInProgress := false }
  let ev1 := if r1.consoleReader then [Event.consoleReaderCancel] else []
  let r2 := { r1 with consoleReader := false }
  let ev2 := if r2.consoleTransport then [Event.consoleTransportDisconnect] else []
  let r3 := { r2 with consoleTransport := false }
  let ev3 := if r3.consoleDevice && env.consoleDeviceReadable
             then [Event.consolePortClose] else []
  let r4 := { r3 with consoleDevice := false }
  (ev1 ++ ev2 ++ ev3 ++ [Event.dispatch (.SET_IS_CONSOLE_CONNECTED false)], r4)

/-- Outcome of portToUse ?? requestPort(): a port handle, a null
result, or a rejection (user cancellation) carrying a message. -/
inductive PortOutcome
  | selected
  | nullPort
  | cancelled (msg : String)

/-- JS e.message || fallback: the fallback replaces an empty message. -/
def msgOr (msg fallback : String) : String :=
  if msg = "" then fallback else msg

def maxRetries : Nat := 3

/-- The retry loop of connect (ESPLoaderProvider.tsx lines 271-309),
driven by the outcome of loader.main() at each attempt (none means
success, some msg means a throw with that message).  Returns the
effects emitted and the error the loop throws, if any.  The fuel
argument bounds the recursion; connectRetry supplies maxRetries, and
the attempt = maxRetries check returns before fuel runs out. -/
def connectRetryGo (mainOutcome : Nat → Option String) :
    Nat → Nat → List Event × Option String
  | _, 0 => ([], none)
  | attempt, fuel + 1 =>
    let pre : List Event :=
      if attempt > 1 then [Event.delay (1000 * attempt)] else []
    match mainOutcome attempt with
    | none => (pre ++ [Event.engineMain attempt], none)
    | some msg =>
      let ev := pre ++ [Event.engineMain attempt]
      if attempt = maxRetries then (ev, some msg)
      else
        let errorMsg := jsToLower msg
        if jsIncludes errorMsg "permission" || jsIncludes errorMsg "access denied" then
          (ev, some msg)
        else
          let extra : List Event :=
            if jsIncludes errorMsg "timeout" || jsIncludes errorMsg "sync" ||
               jsIncludes errorMsg "invalid data"
            then [Event.delay 2000] else []
          let rest := connectRetryGo mainOutcome (attempt + 1) fuel
          (ev ++ extra ++ rest.1, rest.2)

/-- The full retry loop: attempts start at 1. -/
def connectRetry (mainOutcome : Nat → Option String) : List Event × Option String :=
  connectRetryGo mainOutcome 1 maxRetries

/-- Environment of a connect call: availability of the serial API, the
port selection outcome, the handshake outcome per attempt, the chip
name on success, and the behavior of the cleanup path. -/
structure ConnectEnv where
  portToUse : Bool
  serialAvailable : Bool
  portOutcome : PortOutcome
  mainOutcome : Nat → Option String
  chipName : String
  stopEnv : StopConsoleEnv
  cleanupDeviceReadable : Bool
  cleanupCloseThrows : Bool

def serialUnavailableMsg : String :=
  "Web Serial API not available and polyfill failed to initialize."

def noPortMsg : String := "No port selected"

/-- The user-message substitution of the outer catch of connect
(ESPLoaderProvider.tsx lines 396-404).  Note these checks are
case-sensitive, unlike the retry-loop classification. -/
def connectUserMessage (errorMessage : String) : String :=
  if jsIncludes errorMessage "timeout" then
    "Connection timeout. Try pressing the BOOT button on your device while connecting."
  else if jsIncludes errorMessage "NetworkError" ||
          jsIncludes errorMessage "Failed to execute \x27open\x27" then
    "USB connection error. Try disconnecting and reconnecting your device."
  else if jsIncludes errorMessage "invalid data" ||
          jsIncludes errorMessage "Invalid data" then
    "Received invalid data. Try a different baudrate or check your USB connection."
  else errorMessage

/-- The outer catch block of connect (lines 392-437): dispatches the
substituted error then connected-false, disconnects the program
transport when present (secondary failures tolerated), closes the
device port when present and open (tolerated) followed by a 1000 ms
settle delay (skipped when the close throws), and nulls the three
program-mode refs.  The call returns the empty string afterwards. -/
def connectCatch (r : Refs) (env : ConnectEnv) (rawMsg : String) :
    List Event × Refs :=
  let errorMessage := msgOr rawMsg "Failed to connect"
  let userMessage := connectUserMessage errorMessage
  let evs0 := [Event.dispatch (.SET_ERROR (some userMessage)),
               Event.dispatch (.SET_IS_CONNECTED false)]
  let evs1 := if r.programTransport then [Event.programTransportDisconnect] else []
  let evs2 :=
    if r.programDevice then
      if env.cleanupDeviceReadable then
        if env.cleanupCloseThrows then [Event.programPortClose]
        else [Event.programPortClose, Event.delay 1000]
      else [Event.delay 1000]
    else []
  (evs0 ++ evs1 ++ evs2,
   { r with programTransport := false, programDevice := false,
            esploaderInstance := false })

/-- The body of connect after the console teardown: the try block
(serial acquisition, port selection, transport and loader creation,
retry loop, success dispatches), the outer catch, and the finally
(loading false).  Returns the effects, the refs afterwards, and the
return value of the call.  The unreachable classification block of
lines 311-381 (a catch around an immediately-resolved promise)
contributes nothing. -/
def connectBody (r : Refs) (env : ConnectEnv) : List Event × Refs × String :=
  if !env.serialAvailable then
    let c := connectCatch r env serialUnavailableMsg
    (c.1 ++ [Event.dispatch (.SET_IS_LOADING false)], c.2, "")
  else
    let portEvs := if env.portToUse then [] else [Event.requestPortCall]
    match (if env.portToUse then PortOutcome.selected else env.portOutcome) with
    | .cancelled msg =>
      let c := connectCatch r env msg
      (portEvs ++ c.1 ++ [Event.dispatch (.SET_IS_LOADING false)], c.2, "")
    | .nullPort =>
      (portEvs ++
        [Event.dispatch (.SET_ERROR (some noPortMsg)),
         Event.dispatch (.SET_IS_LOADING false),
         Event.dispatch (.SET_IS_LOADING false)], r, "")
    | .selected =>
      let r2 := { r with programDevice := true, programTransport := true,
                         esploaderInstance := true }
      let retry := connectRetry env.mainOutcome
      match retry.2 with
      | none =>
        (portEvs ++ retry.1 ++
          [Event.dispatch (.SET_ESPLOADER true),
           Event.dispatch (.SET_TRANSPORT true),
           Event.dispatch (.SET_IS_CONNECTED true),
           Event.dispatch (.SET_CHIP (some env.chipName)),
           Event.dispatch (.SET_IS_LOADING false)], r2, env.chipName)
      | some msg =>
        let c := connectCatch r2 env msg
        (portEvs ++ retry.1 ++ c.1 ++ [Event.dispatch (.SET_IS_LOADING false)],
         c.2, "")

/-- connect from ESPLoaderProvider.tsx (lines 224-441).  The branch
conditions read the state snapshot observed at call start; under the
sequential scheduling model this is the current state. -/
def connectRun (s0 : ESPLoaderState) (r : Refs) (env : ConnectEnv) :
    List Event × Refs × String :=
  let pre := [Event.dispatch (.SET_IS_LOADING true),
              Event.dispatch (.SET_ERROR none)]
  let stop := if s0.isConsoleConnected then stopConsoleRun r env.stopEnv
              else ([], r)
  let body := connectBody stop.2 env
  (pre ++ stop.1 ++ body.1, body.2.1, body.2.2)

/-- Environment of a disconnect call: whether the program transport
disconnect throws (with which message) and whether the device port is
open at close time.  Port-close failures are swallowed by an inner
try/catch and do not change the dispatch trace. -/
structure DisconnectEnv where
  transportDisconnectThrows : Option String
  deviceReadable : Bool

/-- The finally block of disconnect (lines 489-495). -/
def disconnectFinally : List Event :=
  [Event.dispatch (.SET_IS_CONNECTED false),
   Event.dispatch (.SET_ESPLOADER false),
   Event.dispatch (.SET_TRANSPORT false),
   Event.dispatch (.SET_CHIP none),
   Event.dispatch (.SET_IS_LOADING false)]

/-- disconnect from ESPLoaderProvider.tsx (lines 453-496).  On the
success path: transport disconnect, port close (when open, failures
swallowed), a 2000 ms settle delay, RESET_STATE, refs nulled.  When
the transport disconnect throws, the catch dispatches the message and
the refs stay populated.  The finally always dispatches the five
clearing actions. -/
def disconnectRun (r : Refs) (env : DisconnectEnv) : List Event × Refs :=
  let pre := [Event.dispatch (.SET_IS_LOADING true)]
  match r.programTransport, env.transportDisconnectThrows with
  | true, some msg =>
      (pre ++ [Event.programTransportDisconnect,
               Event.dispatch (.SET_ERROR (some (msgOr msg "Failed to disconnect")))] ++
       disconnectFinally, r)
  | _, _ =>
      let tEvs := if r.programTransport then [Event.programTransportDisconnect] else []
      let dEvs :=
        if r.programDevice then
          (if env.deviceReadable then [Event.programPortClose] else []) ++
          [Event.delay 2000]
        else []
      (pre ++ tEvs ++ dEvs ++ [Event.dispatch .RESET_STATE] ++ disconnectFinally,
       { r with programDevice := false, programTransport := false,
                esploaderInstance := false })

/-- ESPFile from src/src/types.ts (binary payload elided: only the
fields the orchestration logic inspects are kept). -/
structure ESPFile where
  address : Nat
  fileName : Option String

/-- JS Number.prototype.toString(16) on a natural number. -/
def hexString (n : Nat) : String :=
  String.mk (Nat.toDigits 16 n)

/-- The name defaulting of the fileArray mapping in program (line 516):
f.fileName || a hex-address-derived label, where a missing or empty
name is falsy. -/
def fileLabel (f : ESPFile) : String :=
  match f.fileName with
  | some s => if s = "" then "file_0x" ++ hexString f.address else s
  | none => "file_0x" ++ hexString f.address

def notConnectedMsg : String :=
  "Not connected in Program mode. Please connect to a device first."

/-- Environment of a program call: the progress callbacks issued by
writeFlash as (fileIndex, written, total) triples, and whether
writeFlash throws afterwards (with which message). -/
structure ProgramEnv where
  progressReports : List (Nat × Nat × Nat)
  writeFlashError : Option String

/-- The SET_FLASH_PROGRESS payload produced by the reportProgress
callback (lines 531-543): name looked up in the mapped file array,
falling back to the unknown-file label when the index is out of range
or the name is empty. -/
def progressPayload (files : List ESPFile) (t : Nat × Nat × Nat) : FlashProgress :=
  let nm :=
    match (files.map fileLabel).get? t.1 with
    | some s => if s = "" then "Unknown file" else s
    | none => "Unknown file"
  { fileIndex := t.1, fileName := nm, written := t.2.1, total := t.2.2 }

/-- program from ESPLoaderProvider.tsx (lines 498-566): precondition
check on the engine ref and the connected flag, busy flag set, error
cleared, writeFlash invoked with progress callbacks, failure message
dispatched, finally clears the busy flag and the progress record. -/
def programRun (s0 : ESPLoaderState) (r : Refs) (files : List ESPFile)
    (env : ProgramEnv) : List Event :=
  if !r.esploaderInstance || !s0.isConnected then
    [Event.dispatch (.SET_ERROR (some notConnectedMsg))]
  else
    [Event.dispatch (.SET_IS_FLASHING true),
     Event.dispatch (.SET_ERROR none),
     Event.engineWriteFlash] ++
    env.progressReports.map
      (fun t => Event.dispatch (.SET_FLASH_PROGRESS (some (progressPayload files t)))) ++
    (match env.writeFlashError with
     | none => []
     | some msg =>
         [Event.dispatch (.SET_ERROR (some (msgOr msg "Failed to program")))]) ++
    [Event.dispatch (.SET_IS_FLASHING false),
     Event.dispatch (.SET_FLASH_PROGRESS none)]

/-- eraseFlash from ESPLoaderProvider.tsx (lines 570-591): same
precondition as program, erase busy flag, the full-chip erase call,
failure dispatched, finally clears the busy flag. -/
def eraseFlashRun (s0 : ESPLoaderState) (r : Refs)
    (eraseError : Option String) : List Event :=
  if !r.esploaderInstance || !s0.isConnected then
    [Event.dispatch (.SET_ERROR (some notConnectedMsg))]
  else
    [Event.dispatch (.SET_IS_ERASING true),
     Event.dispatch (.SET_ERROR none),
     Event.engineEraseFlashCall] ++
    (match eraseError with
     | none => []
     | some msg =>
         [Event.dispatch (.SET_ERROR (some (msgOr msg "Failed to erase flash")))]) ++
    [Event.dispatch (.SET_IS_ERASING false)]

/-- Environment of a startConsole call: outcomes of the external steps
of the console startup sequence. -/
structure StartConsoleEnv where
  disconnectEnv : DisconnectEnv
  leftoverDeviceReadable : Bool
  serialAvailable : Bool
  portToUse : Bool
  portOutcome : PortOutcome
  portAlreadyReadable : Bool
  preCloseThrows : Bool
  openThrows : Option String
  readableAfterOpen : Bool
  locked : Bool
  recoveryThrows : Option String
  readableAfterRecovery : Bool
  lockedAfterRecovery : Bool
  readerNull : Bool
  catchDisconnectThrows : Bool
  catchDeviceReadable : Bool

def noConsolePortMsg : String := "No port selected for console."

def noReadableMsg : String := "No readable stream available from serial port"

def reopenFailedMsg : String := "Failed to reopen port for console mode"

def stillLockedMsg : String :=
  "ReadableStream is still locked after recovery attempt. Please refresh the page and try again."

def noReaderMsg : String := "Failed to get reader for console."

/-- The wrapper applied by the stream-lock recovery catch (lines
703-708) to whatever its inner block throws. -/
def recoveryWrap (msg : String) : String :=
  "ReadableStream recovery failed: " ++ msg ++ ". Please refresh the page and try again."

/-- The catch block of startConsole (lines 780-797): dispatches the
error, disconnects the console transport when present (this call is
not guarded, so its own failure aborts the rest of the catch and
propagates; only the finally still runs), closes the console device
when present and open (tolerated), nulls the console refs, dispatches
console-connected false. -/
def startConsoleCatch (r : Refs) (env : StartConsoleEnv) (rawMsg : String) :
    List Event × Refs :=
  let ev0 := [Event.dispatch (.SET_ERROR (some (msgOr rawMsg "Failed to start console")))]
  if r.consoleTransport && env.catchDisconnectThrows then
    (ev0 ++ [Event.consoleTransportDisconnect], r)
  else
    let ev1 := if r.consoleTransport then [Event.consoleTransportDisconnect] else []
    let r1 := { r with consoleTransport := false }
    let ev2 := if r1.consoleDevice && env.catchDeviceReadable
               then [Event.consolePortClose] else []
    let r2 := { r1 with consoleDevice := false }
    (ev0 ++ ev1 ++ ev2 ++ [Event.dispatch (.SET_IS_CONSOLE_CONNECTED false)], r2)

/-- The stream-lock recovery attempt (lines 680-709), entered when the
readable stream is locked: close, 1000 ms delay, reopen, recheck; any
failure is wrapped and rethrown to the outer catch.  Returns the
effects and the wrapped error, if any. -/
def lockRecovery (env : StartConsoleEnv) : List Event × Option String :=
  match env.recoveryThrows with
  | some m =>
      ([Event.consolePortClose], some (recoveryWrap m))
  | none =>
      let evs := [Event.consolePortClose, Event.delay 1000, Event.consolePortOpen]
      if !env.readableAfterRecovery then (evs, some (recoveryWrap reopenFailedMsg))
      else if env.lockedAfterRecovery then (evs, some (recoveryWrap stillLockedMsg))
      else (evs, none)

/-- The try block of startConsole after a port was selected (lines
642-779): pre-close of an already-open port, open with the console
framing configuration, transport creation, console-connected true,
readable and lock checks with one recovery attempt, reader
acquisition, duplicate-read-loop guard, detached read loop launch.
Returns the effects, the refs, and the error thrown to the catch, if
any. -/
def startConsoleSelected (r : Refs) (env : StartConsoleEnv) :
    List Event × Refs × Option String :=
  let r3 := { r with consoleDevice := true }
  let preEvs :=
    if env.portAlreadyReadable then
      if env.preCloseThrows then [Event.consolePortClose]
      else [Event.consolePortClose, Event.delay 500]
    else []
  match env.openThrows with
  | some m => (preEvs ++ [Event.consolePortOpen], r3, some m)
  | none =>
    let evs1 := preEvs ++ [Event.consolePortOpen]
    let r4 := { r3 with consoleTransport := true, keepConsoleReading := true }
    let evs2 := evs1 ++ [Event.dispatch (.SET_IS_CONSOLE_CONNECTED true)]
    if !env.readableAfterOpen then (evs2, r4, some noReadableMsg)
    else
      let rec1 := if env.locked then lockRecovery env else ([], none)
      match rec1.2 with
      | some m => (evs2 ++ rec1.1, r4, some m)
      | none =>
        if env.readerNull then (evs2 ++ rec1.1, r4, some noReaderMsg)
        else
          let r5 := { r4 with consoleReader := true }
          if r5.consoleReadingInProgress then (evs2 ++ rec1.1, r5, none)
          else
            let r6 := { r5 with consoleReadingInProgress := true }
            (evs2 ++ rec1.1 ++ [Event.launchReadLoop], r6, none)

/-- The body of startConsole after the prologue: leftover console
device cleanup, then the try/catch, then the finally (loading false). -/
def startConsoleBody (r : Refs) (env : StartConsoleEnv) : List Event × Refs :=
  let leftoverEvs :=
    if r.consoleDevice && env.leftoverDeviceReadable
    then [Event.consolePortClose] else []
  let r2 := { r with consoleDevice := false }
  let fin := [Event.dispatch (.SET_IS_LOADING false)]
  if !env.serialAvailable then
    let c := startConsoleCatch r2 env serialUnavailableMsg
    (leftoverEvs ++ c.1 ++ fin, c.2)
  else
    let portEvs := if env.portToUse then [] else [Event.requestPortCall]
    match (if env.portToUse then PortOutcome.selected else env.portOutcome) with
    | .cancelled msg =>
      let c := startConsoleCatch r2 env msg
      (leftoverEvs ++ portEvs ++ c.1 ++ fin, c.2)
    | .nullPort =>
      (leftoverEvs ++ portEvs ++
        [Event.dispatch (.SET_ERROR (some noConsolePortMsg)),
         Event.dispatch (.SET_IS_LOADING false)] ++ fin, r2)
    | .selected =>
      let sel := startConsoleSelected r2 env
      match sel.2.2 with
      | none => (leftoverEvs ++ portEvs ++ sel.1 ++ fin, sel.2.1)
      | some m =>
        let c := startConsoleCatch sel.2.1 env m
        (leftoverEvs ++ portEvs ++ sel.1 ++ c.1 ++ fin, c.2)

/-- startConsole from ESPLoaderProvider.tsx (lines 593-801): loading
and error-clear dispatches; full disconnect plus an extra 2000 ms
settle delay when program mode is active; idempotent early return when
the console is already connected; otherwise the startup body.  Branch
conditions read the state snapshot observed at call start. -/
def startConsoleRun (s0 : ESPLoaderState) (r : Refs) (env : StartConsoleEnv) :
    List Event × Refs :=
  let pre := [Event.dispatch (.SET_IS_LOADING true),
              Event.dispatch (.SET_ERROR none)]
  let disc := if s0.isConnected then
                let d := disconnectRun r env.disconnectEnv
                (d.1 ++ [Event.delay 2000], d.2)
              else ([], r)
  if s0.isConsoleConnected then
    (pre ++ disc.1 ++ [Event.dispatch (.SET_IS_LOADING false)], disc.2)
  else
    let body := startConsoleBody disc.2 env
    (pre ++ disc.1 ++ body.1, body.2)

/-- The four session-lifecycle calls of the mutual-exclusion claim,
each packaged with the environment describing its external outcomes. -/
inductive Call
  | connectC (env : ConnectEnv)
  | disconnectC (env : DisconnectEnv)
  | startConsoleC (env : StartConsoleEnv)
  | stopConsoleC (env : StopConsoleEnv)

/-- Effects and resulting refs of one call, given the state snapshot at
call start. -/
def callRun (s : ESPLoaderState) (r : Refs) : Call → List Event × Refs
  | .connectC env => let c := connectRun s r env; (c.1, c.2.1)
  | .disconnectC env => disconnectRun r env
  | .startConsoleC env => startConsoleRun s r env
  | .stopConsoleC env => stopConsoleRun r env

/-- All observed state snapshots along a sequence of calls executed
sequentially to completion. -/
def runCallsSnapshots (s : ESPLoaderState) (r : Refs) :
    List Call → List ESPLoaderState
  | [] => [s]
  | c :: cs =>
      let p := callRun s r c
      snapshotsAux s p.1 ++ runCallsSnapshots (runEvents s p.1) p.2 cs

/-! ### Mutual-exclusion infrastructure -/

/-- The mode invariant: the two session flags are never both true. -/
def ModeInv (s : ESPLoaderState) : Prop :=
  s.isConnected = false ∨ s.isConsoleConnected = false

instance (s : ESPLoaderState) : Decidable (ModeInv s) := by
  unfold ModeInv; infer_instance

/-- Whether an effect can switch the program-connected flag on. -/
def turnsOnConn : Event → Bool
  | .dispatch (.SET_IS_CONNECTED b) => b
  | _ => false

/-- Whether an effect can switch the console-connected flag on. -/
def turnsOnCons : Event → Bool
  | .dispatch (.SET_IS_CONSOLE_CONNECTED b) => b
  | _ => false

lemma conn_false_step (t : ESPLoaderState) (e : Event)
    (he : turnsOnConn e = false) (ht : t.isConnected = false) :
    (applyEvent t e).isConnected = false := by
  cases e
  case dispatch a =>
    cases a <;>
      simp_all [applyEvent, esploaderReducer, turnsOnConn, initialESPLoaderState]
  all_goals simpa [applyEvent] using ht

lemma cons_false_step (t : ESPLoaderState) (e : Event)
    (he : turnsOnCons e = false) (ht : t.isConsoleConnected = false) :
    (applyEvent t e).isConsoleConnected = false := by
  cases e
  case dispatch a =>
    cases a <;>
      simp_all [applyEvent, esploaderReducer, turnsOnCons, initialESPLoaderState]
  all_goals simpa [applyEvent] using ht

lemma modeInv_step (t : ESPLoaderState) (e : Event)
    (h1 : turnsOnConn e = false) (h2 : turnsOnCons e = false)
    (h : ModeInv t) : ModeInv (applyEvent t e) := by
  rcases h with h | h
  · exact Or.inl (conn_false_step t e h1 h)
  · exact Or.inr (cons_false_step t e h2 h)

lemma snapshots_all_of_step (P : ESPLoaderState → Prop) :
    ∀ (evs : List Event) (s : ESPLoaderState),
      (∀ t e, e ∈ evs → P t → P (applyEvent t e)) → P s →
      ∀ t ∈ snapshotsAux s evs, P t := by
  intro evs
  induction evs with
  | nil =>
      intro s _ hs t ht
      simp [snapshotsAux] at ht
      exact ht ▸ hs
  | cons e evs ih =>
      intro s hstep hs t ht
      simp only [snapshotsAux, List.mem_cons] at ht
      rcases ht with rfl | ht
      · exact hs
      · exact ih (applyEvent s e)
          (fun u x hx hu => hstep u x (List.mem_cons_of_mem _ hx) hu)
          (hstep s e (List.mem_cons_self _ _) hs) t ht

lemma runEvents_mem_snapshots (evs : List Event) :
    ∀ s, runEvents s evs ∈ snapshotsAux s evs := by
  induction evs with
  | nil => intro s; simp [runEvents, snapshotsAux]
  | cons e evs ih =>
      intro s
      simp only [snapshotsAux, runEvents, List.foldl_cons, List.mem_cons]
      exact Or.inr (ih (applyEvent s e))

lemma self_mem_snapshots (s : ESPLoaderState) (l : List Event) :
    s ∈ snapshotsAux s l := by
  cases l <;> simp [snapshotsAux]

lemma mem_snapshots_append (l1 : List Event) :
    ∀ (s : ESPLoaderState) (l2 : List Event) (t : ESPLoaderState),
      t ∈ snapshotsAux s (l1 ++ l2) ↔
        t ∈ snapshotsAux s l1 ∨ t ∈ snapshotsAux (runEvents s l1) l2 := by
  induction l1 with
  | nil =>
      intro s l2 t
      simp only [List.nil_append, runEvents, List.foldl_nil, snapshotsAux]
      constructor
      · exact Or.inr
      · rintro (ht | ht)
        · simp at ht
          exact ht ▸ self_mem_snapshots s l2
        · exact ht
  | cons e l1 ih =>
      intro s l2 t
      have hr : runEvents s (e :: l1) = runEvents (applyEvent s e) l1 := by
        simp [runEvents]
      rw [List.cons_append]
      simp only [snapshotsAux, List.mem_cons]
      rw [hr, ih (applyEvent s e) l2 t]
      tauto

lemma runEvents_append (s : ESPLoaderState) (l1 l2 : List Event) :
    runEvents s (l1 ++ l2) = runEvents (runEvents s l1) l2 := by
  simp [runEvents, List.foldl_append]

/-- Events that can switch neither flag on preserve both
flag-is-false facts and hence the invariant along all snapshots. -/
lemma snapshots_modeInv_of_bothOff (s : ESPLoaderState) (evs : List Event)
    (hall : ∀ e ∈ evs, turnsOnConn e = false ∧ turnsOnCons e = false)
    (h : ModeInv s) : ∀ t ∈ snapshotsAux s evs, ModeInv t :=
  snapshots_all_of_step ModeInv evs s
    (fun t e he ht => modeInv_step t e (hall e he).1 (hall e he).2 ht) h

lemma snapshots_conn_false (s : ESPLoaderState) (evs : List Event)
    (hall : ∀ e ∈ evs, turnsOnConn e = false)
    (h : s.isConnected = false) :
    ∀ t ∈ snapshotsAux s evs, t.isConnected = false :=
  snapshots_all_of_step (fun t => t.isConnected = false) evs s
    (fun t e he ht => conn_false_step t e (hall e he) ht) h

lemma snapshots_cons_false (s : ESPLoaderState) (evs : List Event)
    (hall : ∀ e ∈ evs, turnsOnCons e = false)
    (h : s.isConsoleConnected = false) :
    ∀ t ∈ snapshotsAux s evs, t.isConsoleConnected = false :=
  snapshots_all_of_step (fun t => t.isConsoleConnected = false) evs s
    (fun t e he ht => cons_false_step t e (hall e he) ht) h

/-- No effect of the list can switch the program-connected flag on. -/
def connOffB (evs : List Event) : Bool := evs.all fun e => !turnsOnConn e

/-- No effect of the list can switch the console-connected flag on. -/
def consOffB (evs : List Event) : Bool := evs.all fun e => !turnsOnCons e

lemma connOffB_spec (evs : List Event) (h : connOffB evs = true) :
    ∀ e ∈ evs, turnsOnConn e = false := by
  intro e he
  have := List.all_eq_true.mp h e he
  simpa using this

lemma consOffB_spec (evs : List Event) (h : consOffB evs = true) :
    ∀ e ∈ evs, turnsOnCons e = false := by
  intro e he
  have := List.all_eq_true.mp h e he
  simpa using this

lemma stopConsole_connOffB (r : Refs) (env : StopConsoleEnv) :
    connOffB (stopConsoleRun r env).1 = true := by
  rcases r with ⟨pd, pt, ei, cd, ct, cr, k, rip⟩
  rcases env with ⟨cdr⟩
  rcases cr <;> rcases ct <;> rcases cd <;> rcases cdr <;>
    simp [stopConsoleRun, connOffB, turnsOnConn]

lemma stopConsole_consOffB (r : Refs) (env : StopConsoleEnv) :
    consOffB (stopConsoleRun r env).1 = true := by
  rcases r with ⟨pd, pt, ei, cd, ct, cr, k, rip⟩
  rcases env with ⟨cdr⟩
  rcases cr <;> rcases ct <;> rcases cd <;> rcases cdr <;>
    simp [stopConsoleRun, consOffB, turnsOnCons]

lemma disconnect_connOffB (r : Refs) (env : DisconnectEnv) :
    connOffB (disconnectRun r env).1 = true := by
  rcases r with ⟨pd, pt, ei, cd, ct, cr, k, rip⟩
  rcases env with ⟨tdt, dr⟩
  rcases pt <;> rcases tdt <;> rcases pd <;> rcases dr <;>
    simp [disconnectRun, disconnectFinally, connOffB, turnsOnConn]

lemma disconnect_consOffB (r : Refs) (env : DisconnectEnv) :
    consOffB (disconnectRun r env).1 = true := by
  rcases r with ⟨pd, pt, ei, cd, ct, cr, k, rip⟩
  rcases env with ⟨tdt, dr⟩
  rcases pt <;> rcases tdt <;> rcases pd <;> rcases dr <;>
    simp [disconnectRun, disconnectFinally, consOffB, turnsOnCons]

lemma retry_connOffB (f : Nat → Option String) :
    ∀ n a, connOffB (connectRetryGo f a n).1 = true := by
  intro n
  induction n with
  | zero => intro a; simp [connectRetryGo, connOffB]
  | succ n ih =>
      intro a
      have ihn := ih (a + 1)
      rcases hf : f a with _ | msg <;>
        simp only [connectRetryGo, hf] <;>
        split_ifs <;>
        simp_all [connOffB, turnsOnConn, List.all_append]

lemma retry_consOffB (f : Nat → Option String) :
    ∀ n a, consOffB (connectRetryGo f a n).1 = true := by
  intro n
  induction n with
  | zero => intro a; simp [connectRetryGo, consOffB]
  | succ n ih =>
      intro a
      have ihn := ih (a + 1)
      rcases hf : f a with _ | msg <;>
        simp only [connectRetryGo, hf] <;>
        split_ifs <;>
        simp_all [consOffB, turnsOnCons, List.all_append]

lemma connectCatch_connOffB (r : Refs) (env : ConnectEnv) (msg : String) :
    connOffB (connectCatch r env msg).1 = true := by
  rcases r with ⟨pd, pt, ei, cd, ct, cr, k, rip⟩
  rcases hdr : env.cleanupDeviceReadable <;> rcases hct : env.cleanupCloseThrows <;>
    rcases pt <;> rcases pd <;>
    simp [connectCatch, hdr, hct, connOffB, turnsOnConn]

lemma connectCatch_consOffB (r : Refs) (env : ConnectEnv) (msg : String) :
    consOffB (connectCatch r env msg).1 = true := by
  rcases r with ⟨pd, pt, ei, cd, ct, cr, k, rip⟩
  rcases hdr : env.cleanupDeviceReadable <;> rcases hct : env.cleanupCloseThrows <;>
    rcases pt <;> rcases pd <;>
    simp [connectCatch, hdr, hct, consOffB, turnsOnCons]

lemma consOffB_append (a b : List Event) :
    consOffB (a ++ b) = (consOffB a && consOffB b) := by
  simp [consOffB, List.all_append]

lemma connOffB_append (a b : List Event) :
    connOffB (a ++ b) = (connOffB a && connOffB b) := by
  simp [connOffB, List.all_append]

lemma consOffB_cons (e : Event) (l : List Event) :
    consOffB (e :: l) = (!turnsOnCons e && consOffB l) := by
  simp [consOffB]

lemma connOffB_cons (e : Event) (l : List Event) :
    connOffB (e :: l) = (!turnsOnConn e && connOffB l) := by
  simp [connOffB]

lemma consOffB_nil : consOffB [] = true := rfl

lemma connOffB_nil : connOffB [] = true := rfl

lemma connectBody_consOffB (r : Refs) (env : ConnectEnv) :
    consOffB (connectBody r env).1 = true := by
  have hretry : consOffB (connectRetry env.mainOutcome).1 = true :=
    retry_consOffB env.mainOutcome maxRetries 1
  have hcatch := fun (r2 : Refs) msg => connectCatch_consOffB r2 env msg
  unfold connectBody
  rcases hs : env.serialAvailable <;> rcases hp : env.portToUse <;>
    rcases hpo : env.portOutcome <;> rcases hr : (connectRetry env.mainOutcome).2 <;>
    simp [hs, hp, hpo, hr, consOffB_append, consOffB_cons, consOffB_nil,
      turnsOnCons, hcatch, hretry]


lemma lockRecovery_connOffB (env : StartConsoleEnv) :
    connOffB (lockRecovery env).1 = true := by
  rcases hrt : env.recoveryThrows <;>
    rcases hra : env.readableAfterRecovery <;>
    rcases hla : env.lockedAfterRecovery <;>
    simp [lockRecovery, hrt, hra, hla, connOffB, turnsOnConn]

lemma startConsoleSelected_connOffB (r : Refs) (env : StartConsoleEnv) :
    connOffB (startConsoleSelected r env).1 = true := by
  have hlock := lockRecovery_connOffB env
  unfold startConsoleSelected
  rcases hot : env.openThrows <;>
    rcases hor : env.readableAfterOpen <;>
    rcases hl : env.locked <;>
    rcases hrec : (lockRecovery env).2 <;>
    rcases hpr : env.portAlreadyReadable <;>
    rcases hpc : env.preCloseThrows <;>
    rcases hrn : env.readerNull <;>
    rcases hrp : r.consoleReadingInProgress <;>
    simp [hot, hor, hl, hrec, hpr, hpc, hrn, hrp, connOffB_append, connOffB_cons,
      connOffB_nil, turnsOnConn, hlock]

lemma startConsoleCatch_connOffB (r : Refs) (env : StartConsoleEnv) (msg : String) :
    connOffB (startConsoleCatch r env msg).1 = true := by
  rcases hct : r.consoleTransport <;> rcases hcd : r.consoleDevice <;>
    rcases hdt : env.catchDisconnectThrows <;> rcases hdr : env.catchDeviceReadable <;>
    simp [startConsoleCatch, hct, hcd, hdt, hdr, connOffB_append, connOffB_cons,
      connOffB_nil, turnsOnConn]

lemma startConsoleBody_connOffB (r : Refs) (env : StartConsoleEnv) :
    connOffB (startConsoleBody r env).1 = true := by
  have hsel := startConsoleSelected_connOffB { r with consoleDevice := false } env
  have hcatch := fun (r2 : Refs) msg => startConsoleCatch_connOffB r2 env msg
  unfold startConsoleBody
  rcases hs : env.serialAvailable <;> rcases hp : env.portToUse <;>
    rcases hpo : env.portOutcome <;>
    rcases hsr : (startConsoleSelected { r with consoleDevice := false } env).2.2 <;>
    rcases hld : (r.consoleDevice && env.leftoverDeviceReadable) <;>
    simp [hs, hp, hpo, hsr, hld, connOffB_append, connOffB_cons, connOffB_nil,
      turnsOnConn, hsel, hcatch]

lemma stopConsole_final_cons (s : ESPLoaderState) (r : Refs) (env : StopConsoleEnv) :
    (runEvents s (stopConsoleRun r env).1).isConsoleConnected = false := by
  rcases r with ⟨pd, pt, ei, cd, ct, cr, k, rip⟩
  rcases env with ⟨cdr⟩
  rcases cr <;> rcases ct <;> rcases cd <;> rcases cdr <;>
    simp [stopConsoleRun, runEvents, applyEvent, esploaderReducer]

lemma disconnect_final_conn (s : ESPLoaderState) (r : Refs) (env : DisconnectEnv) :
    (runEvents s (disconnectRun r env).1).isConnected = false := by
  rcases r with ⟨pd, pt, ei, cd, ct, cr, k, rip⟩
  rcases env with ⟨tdt, dr⟩
  rcases pt <;> rcases tdt <;> rcases pd <;> rcases dr <;>
    simp [disconnectRun, disconnectFinally, runEvents, applyEvent, esploaderReducer,
      initialESPLoaderState]

/-- The two fixed leading dispatches of connect and startConsole. -/
def loadErrPre : List Event :=
  [Event.dispatch (.SET_IS_LOADING true), Event.dispatch (.SET_ERROR none)]

lemma loadErrPre_bothOff :
    ∀ e ∈ loadErrPre, turnsOnConn e = false ∧ turnsOnCons e = false := by decide

lemma stopConsole_snapshots_modeInv (s : ESPLoaderState) (r : Refs)
    (env : StopConsoleEnv) (h : ModeInv s) :
    ∀ t ∈ snapshotsAux s (stopConsoleRun r env).1, ModeInv t :=
  snapshots_modeInv_of_bothOff s _
    (fun e he => ⟨connOffB_spec _ (stopConsole_connOffB r env) e he,
                  consOffB_spec _ (stopConsole_consOffB r env) e he⟩) h

lemma disconnect_snapshots_modeInv (s : ESPLoaderState) (r : Refs)
    (env : DisconnectEnv) (h : ModeInv s) :
    ∀ t ∈ snapshotsAux s (disconnectRun r env).1, ModeInv t :=
  snapshots_modeInv_of_bothOff s _
    (fun e he => ⟨connOffB_spec _ (disconnect_connOffB r env) e he,
                  consOffB_spec _ (disconnect_consOffB r env) e he⟩) h

lemma connect_snapshots_modeInv (s : ESPLoaderState) (r : Refs) (env : ConnectEnv)
    (h : ModeInv s) :
    ∀ t ∈ snapshotsAux s (connectRun s r env).1, ModeInv t := by
  rcases hcc : s.isConsoleConnected
  · -- console flag false at call start: no effect of the trace switches it on
    have htr : (connectRun s r env).1 = loadErrPre ++ (connectBody r env).1 := by
      simp [connectRun, hcc, loadErrPre]
    intro t ht
    rw [htr] at ht
    have hall : ∀ e ∈ loadErrPre ++ (connectBody r env).1, turnsOnCons e = false := by
      intro e he
      rcases List.mem_append.mp he with he | he
      · exact (loadErrPre_bothOff e he).2
      · exact consOffB_spec _ (connectBody_consOffB r env) e he
    exact Or.inr (snapshots_cons_false s _ hall hcc t ht)
  · -- console active: the invariant gives isConnected = false; the console is
    -- torn down before the body can switch the program flag on
    have hconn : s.isConnected = false := by
      rcases h with h | h
      · exact h
      · rw [h] at hcc; cases hcc
    have htr : (connectRun s r env).1 =
        (loadErrPre ++ (stopConsoleRun r env.stopEnv).1) ++
          (connectBody (stopConsoleRun r env.stopEnv).2 env).1 := by
      simp [connectRun, hcc, loadErrPre, List.append_assoc]
    intro t ht
    rw [htr, mem_snapshots_append] at ht
    rcases ht with ht | ht
    · have hall : ∀ e ∈ loadErrPre ++ (stopConsoleRun r env.stopEnv).1,
          turnsOnConn e = false := by
        intro e he
        rcases List.mem_append.mp he with he | he
        · exact (loadErrPre_bothOff e he).1
        · exact connOffB_spec _ (stopConsole_connOffB r env.stopEnv) e he
      exact Or.inl (snapshots_conn_false s _ hall hconn t ht)
    · have hcons1 :
          (runEvents s (loadErrPre ++ (stopConsoleRun r env.stopEnv).1)).isConsoleConnected
            = false := by
        rw [runEvents_append]
        exact stopConsole_final_cons _ r env.stopEnv
      have hall : ∀ e ∈ (connectBody (stopConsoleRun r env.stopEnv).2 env).1,
          turnsOnCons e = false :=
        consOffB_spec _ (connectBody_consOffB (stopConsoleRun r env.stopEnv).2 env)
      exact Or.inr (snapshots_cons_false _ _ hall hcons1 t ht)

lemma startConsole_snapshots_modeInv (s : ESPLoaderState) (r : Refs)
    (env : StartConsoleEnv) (h : ModeInv s) :
    ∀ t ∈ snapshotsAux s (startConsoleRun s r env).1, ModeInv t := by
  rcases hic : s.isConnected
  · -- program flag false at call start: no effect of the trace switches it on
    have hall : ∀ e ∈ (startConsoleRun s r env).1, turnsOnConn e = false := by
      rcases hcc : s.isConsoleConnected
      · have htr : (startConsoleRun s r env).1 =
            loadErrPre ++ (startConsoleBody r env).1 := by
          simp [startConsoleRun, hic, hcc, loadErrPre]
        rw [htr]
        intro e he
        rcases List.mem_append.mp he with he | he
        · exact (loadErrPre_bothOff e he).1
        · exact connOffB_spec _ (startConsoleBody_connOffB r env) e he
      · have htr : (startConsoleRun s r env).1 =
            loadErrPre ++ [Event.dispatch (.SET_IS_LOADING false)] := by
          simp [startConsoleRun, hic, hcc, loadErrPre]
        rw [htr]
        decide
    intro t ht
    exact Or.inl (snapshots_conn_false s _ hall hic t ht)
  · -- program mode active: the invariant gives console = false; the program
    -- session is fully disconnected before the console body runs
    have hcc : s.isConsoleConnected = false := by
      rcases h with h | h
      · rw [h] at hic; cases hic
      · exact h
    have htr : (startConsoleRun s r env).1 =
        (loadErrPre ++ ((disconnectRun r env.disconnectEnv).1 ++ [Event.delay 2000])) ++
          (startConsoleBody (disconnectRun r env.disconnectEnv).2 env).1 := by
      simp [startConsoleRun, hic, hcc, loadErrPre, List.append_assoc]
    intro t ht
    rw [htr, mem_snapshots_append] at ht
    rcases ht with ht | ht
    · have hall : ∀ e ∈ loadErrPre ++
          ((disconnectRun r env.disconnectEnv).1 ++ [Event.delay 2000]),
          turnsOnConn e = false ∧ turnsOnCons e = false := by
        intro e he
        rcases List.mem_append.mp he with he | he
        · exact loadErrPre_bothOff e he
        · rcases List.mem_append.mp he with he | he
          · exact ⟨connOffB_spec _ (disconnect_connOffB r env.disconnectEnv) e he,
                   consOffB_spec _ (disconnect_consOffB r env.disconnectEnv) e he⟩
          · simp only [List.mem_singleton] at he
            subst he
            exact ⟨rfl, rfl⟩
      exact snapshots_modeInv_of_bothOff s _ hall h t ht
    · have hconn1 :
          (runEvents s (loadErrPre ++
            ((disconnectRun r env.disconnectEnv).1 ++ [Event.delay 2000]))).isConnected
            = false := by
        rw [runEvents_append, runEvents_append]
        have hd := disconnect_final_conn (runEvents s loadErrPre) r env.disconnectEnv
        simpa [runEvents, applyEvent] using hd
      have hall : ∀ e ∈ (startConsoleBody (disconnectRun r env.disconnectEnv).2 env).1,
          turnsOnConn e = false :=
        connOffB_spec _ (startConsoleBody_connOffB (disconnectRun r env.disconnectEnv).2 env)
      exact Or.inl (snapshots_conn_false _ _ hall hconn1 t ht)

lemma call_snapshots_modeInv (s : ESPLoaderState) (r : Refs) (c : Call)
    (h : ModeInv s) : ∀ t ∈ snapshotsAux s (callRun s r c).1, ModeInv t := by
  cases c with
  | connectC env => simpa [callRun] using connect_snapshots_modeInv s r env h
  | disconnectC env => simpa [callRun] using disconnect_snapshots_modeInv s r env h
  | startConsoleC env => simpa [callRun] using startConsole_snapshots_modeInv s r env h
  | stopConsoleC env => simpa [callRun] using stopConsole_snapshots_modeInv s r env h

lemma call_final_modeInv (s : ESPLoaderState) (r : Refs) (c : Call)
    (h : ModeInv s) : ModeInv (runEvents s (callRun s r c).1) :=
  call_snapshots_modeInv s r c h _ (runEvents_mem_snapshots _ s)

/-! ### Claim theorems -/

/-- Claim C1: for every sequence of connect, startConsole, disconnect and
stopConsole calls executed sequentially to completion from a state
satisfying the mode invariant, no observed state snapshot has
isConnected and isConsoleConnected both true: each start routine tears
the other mode down (and that teardown dispatches its connected-false
action) before its own connected-true dispatch. -/
theorem mutual_exclusion_of_modes (calls : List Call) :
    ∀ (s : ESPLoaderState) (r : Refs), ModeInv s →
      ∀ t ∈ runCallsSnapshots s r calls, ModeInv t := by
  induction calls with
  | nil =>
      intro s r h t ht
      simp [runCallsSnapshots] at ht
      exact ht ▸ h
  | cons c cs ih =>
      intro s r h t ht
      simp only [runCallsSnapshots, List.mem_append] at ht
      rcases ht with ht | ht
      · exact call_snapshots_modeInv s r c h t ht
      · exact ih _ _ (call_final_modeInv s r c h) t ht

/-- A connect environment where everything succeeds at the first
handshake attempt. -/
def connectEnvOk : ConnectEnv where
  portToUse := false
  serialAvailable := true
  portOutcome := .selected
  mainOutcome := fun _ => none
  chipName := "ESP32-C3"
  stopEnv := ⟨true⟩
  cleanupDeviceReadable := true
  cleanupCloseThrows := false

/-- A startConsole environment where everything succeeds. -/
def startConsoleEnvOk : StartConsoleEnv where
  disconnectEnv := ⟨none, true⟩
  leftoverDeviceReadable := false
  serialAvailable := true
  portToUse := false
  portOutcome := .selected
  portAlreadyReadable := false
  preCloseThrows := false
  openThrows := none
  readableAfterOpen := true
  locked := false
  recoveryThrows := none
  readableAfterRecovery := true
  lockedAfterRecovery := false
  readerNull := false
  catchDisconnectThrows := false
  catchDeviceReadable := true

/-- Witness for C1: a concrete four-call session (connect, switch to
console, disconnect, stop) run from the initial state keeps the mode
invariant at every snapshot. -/
theorem mutual_exclusion_of_modes_witness :
    ModeInv initialESPLoaderState ∧
    ∀ t ∈ runCallsSnapshots initialESPLoaderState initialRefs
        [Call.connectC connectEnvOk, Call.startConsoleC startConsoleEnvOk,
         Call.connectC connectEnvOk, Call.disconnectC ⟨none, true⟩,
         Call.stopConsoleC ⟨true⟩], ModeInv t :=
  ⟨by decide,
   mutual_exclusion_of_modes _ initialESPLoaderState initialRefs (by decide)⟩

/-- Claim C2: for every state and every payload (null included), the
reducer applied to a SET_ERROR event yields a state with all three busy
flags false and error equal to the payload, so at the instant an error
is dispatched no busy flag is observed true alongside it. -/
theorem set_error_clears_busy_flags (s : ESPLoaderState) (payload : Option String) :
    (esploaderReducer s (.SET_ERROR payload)).isLoading = false ∧
    (esploaderReducer s (.SET_ERROR payload)).isFlashing = false ∧
    (esploaderReducer s (.SET_ERROR payload)).isErasing = false ∧
    (esploaderReducer s (.SET_ERROR payload)).error = payload := by
  simp [esploaderReducer]

/-- Claim C6: the append-to-last-line event concatenates its payload onto
the last terminal entry exactly when the buffer is non-empty and its last
entry does not end with a newline, and otherwise appends the payload as a
new entry; writing the chunks abc, def-newline, ghi to an empty buffer
yields the two lines abcdef-newline and ghi. -/
theorem append_terminal_coalescing :
    (∀ (s : ESPLoaderState) (chunk : String),
      (esploaderReducer s (.APPEND_TERMINAL_OUTPUT chunk)).terminalOutput =
        match s.terminalOutput.getLast? with
        | some last =>
            if endsWithNewlineB last then s.terminalOutput ++ [chunk]
            else s.terminalOutput.dropLast ++ [last ++ chunk]
        | none => [chunk]) ∧
    (["abc", "def\n", "ghi"].foldl
        (fun s c => esploaderReducer s (.APPEND_TERMINAL_OUTPUT c))
        initialESPLoaderState).terminalOutput = ["abcdef\n", "ghi"] := by
  constructor
  · intro s chunk
    rcases List.eq_nil_or_concat s.terminalOutput with hl | ⟨l, b, hl⟩
    · simp [esploaderReducer, hl]
    · rcases hbe : endsWithNewlineB b <;>
        simp [esploaderReducer, hl, hbe, List.getLastD_concat]
  · decide

/-- Claim C7: RESET_STATE preserves the six configuration fields and
resets every other field to its documented initial value. -/
theorem reset_state_frame (s : ESPLoaderState) :
    (esploaderReducer s .RESET_STATE).baudrate = s.baudrate ∧
    (esploaderReducer s .RESET_STATE).consoleBaudrate = s.consoleBaudrate ∧
    (esploaderReducer s .RESET_STATE).consoleDataBits = s.consoleDataBits ∧
    (esploaderReducer s .RESET_STATE).consoleStopBits = s.consoleStopBits ∧
    (esploaderReducer s .RESET_STATE).consoleParity = s.consoleParity ∧
    (esploaderReducer s .RESET_STATE).debugLogging = s.debugLogging ∧
    (esploaderReducer s .RESET_STATE).transport = false ∧
    (esploaderReducer s .RESET_STATE).esploader = false ∧
    (esploaderReducer s .RESET_STATE).chip = none ∧
    (esploaderReducer s .RESET_STATE).isConnected = false ∧
    (esploaderReducer s .RESET_STATE).isConsoleConnected = false ∧
    (esploaderReducer s .RESET_STATE).isLoading = false ∧
    (esploaderReducer s .RESET_STATE).isFlashing = false ∧
    (esploaderReducer s .RESET_STATE).isErasing = false ∧
    (esploaderReducer s .RESET_STATE).error = none ∧
    (esploaderReducer s .RESET_STATE).terminalOutput = [] ∧
    (esploaderReducer s .RESET_STATE).flashProgress = none := by
  simp [esploaderReducer, initialESPLoaderState]

/-- Claim C9: calling program or eraseFlash with the engine handle
absent or isConnected false dispatches only a not-connected error: the
engine is never invoked, the busy flag stays false throughout (when it
started false), and no field besides error and the busy flags changes. -/
theorem flash_ops_not_connected (s : ESPLoaderState) (r : Refs)
    (files : List ESPFile) (penv : ProgramEnv) (eraseErr : Option String)
    (h : r.esploaderInstance = false ∨ s.isConnected = false) :
    programRun s r files penv =
      [Event.dispatch (.SET_ERROR (some notConnectedMsg))] ∧
    eraseFlashRun s r eraseErr =
      [Event.dispatch (.SET_ERROR (some notConnectedMsg))] ∧
    Event.engineWriteFlash ∉ programRun s r files penv ∧
    Event.engineEraseFlashCall ∉ eraseFlashRun s r eraseErr ∧
    runEvents s (programRun s r files penv) =
      { s with error := some notConnectedMsg, isLoading := false,
               isFlashing := false, isErasing := false } ∧
    runEvents s (eraseFlashRun s r eraseErr) =
      { s with error := some notConnectedMsg, isLoading := false,
               isFlashing := false, isErasing := false } ∧
    (s.isFlashing = false →
      ∀ t ∈ snapshotsAux s (programRun s r files penv), t.isFlashing = false) ∧
    (s.isErasing = false →
      ∀ t ∈ snapshotsAux s (eraseFlashRun s r eraseErr), t.isErasing = false) := by
  have hcond : (!r.esploaderInstance || !s.isConnected) = true := by
    rcases h with h | h <;> simp [h]
  have hp : programRun s r files penv =
      [Event.dispatch (.SET_ERROR (some notConnectedMsg))] := by
    simp [programRun, hcond]
  have he : eraseFlashRun s r eraseErr =
      [Event.dispatch (.SET_ERROR (some notConnectedMsg))] := by
    simp [eraseFlashRun, hcond]
  refine ⟨hp, he, ?_, ?_, ?_, ?_, ?_, ?_⟩
  · rw [hp]; simp
  · rw [he]; simp
  · rw [hp]; rfl
  · rw [he]; rfl
  · intro hf t ht
    rw [hp] at ht
    simp [snapshotsAux] at ht
    rcases ht with rfl | rfl
    · exact hf
    · simp [applyEvent, esploaderReducer]
  · intro hf t ht
    rw [he] at ht
    simp [snapshotsAux] at ht
    rcases ht with rfl | rfl
    · exact hf
    · simp [applyEvent, esploaderReducer]

/-- Witness for C9: on the initial (disconnected) state, program and
eraseFlash dispatch only the not-connected error and the erase busy
flag never turns on. -/
theorem flash_ops_not_connected_witness :
    programRun initialESPLoaderState initialRefs [] ⟨[], none⟩ =
      [Event.dispatch (.SET_ERROR (some notConnectedMsg))] ∧
    (runEvents initialESPLoaderState
        (eraseFlashRun initialESPLoaderState initialRefs none)).error =
      some notConnectedMsg := by
  have h := flash_ops_not_connected initialESPLoaderState initialRefs []
    ⟨[], none⟩ none (Or.inl rfl)
  refine ⟨h.1, ?_⟩
  rw [h.2.2.2.2.2.1]

/-- A connected program-mode session state, as produced by a successful
connect. -/
def connState : ESPLoaderState :=
  { initialESPLoaderState with
      isConnected := true, esploader := true, transport := true,
      chip := some "ESP32-C3" }

/-- The refs of a connected program-mode session. -/
def connRefs : Refs :=
  { initialRefs with
      programDevice := true, programTransport := true, esploaderInstance := true }

/-- Counterexample to claim C3: on a connected session where the engine
call throws, SET_ERROR is dispatched with the failure message, yet the
state after the operation completes (its finally block included) has
error = none: the finally dispatch that clears the busy flag also
resets error. -/
theorem operation_error_persistence_counterexample :
    Event.dispatch (.SET_ERROR (some "flash failed")) ∈
      programRun connState connRefs [] ⟨[], some "flash failed"⟩ ∧
    (runEvents connState
        (programRun connState connRefs [] ⟨[], some "flash failed"⟩)).error
      = none ∧
    (runEvents connState
        (eraseFlashRun connState connRefs (some "erase failed"))).error = none := by
  decide

/-- Claim C3 amended: when program or eraseFlash runs on a connected
session and the engine call throws, the failure message is dispatched
into error state at the catch instant, but the finally dispatch that
clears the busy flag (SET_IS_FLASHING or SET_IS_ERASING false) resets
error to null, so the state after the operation completes has error =
none: the error does not survive the cleanup dispatches. -/
theorem operation_error_transient (s : ESPLoaderState) (r : Refs)
    (files : List ESPFile) (env : ProgramEnv) (msg : String)
    (hr : r.esploaderInstance = true) (hc : s.isConnected = true)
    (hm : msg ≠ "") (he : env.writeFlashError = some msg) :
    Event.dispatch (.SET_ERROR (some msg)) ∈ programRun s r files env ∧
    (runEvents s (programRun s r files env)).error = none ∧
    Event.dispatch (.SET_ERROR (some msg)) ∈ eraseFlashRun s r (some msg) ∧
    (runEvents s (eraseFlashRun s r (some msg))).error = none := by
  have hprog : programRun s r files env =
      [Event.dispatch (.SET_IS_FLASHING true), Event.dispatch (.SET_ERROR none),
       Event.engineWriteFlash] ++
      ((env.progressReports.map fun t =>
          Event.dispatch (.SET_FLASH_PROGRESS (some (progressPayload files t)))) ++
        ([Event.dispatch (.SET_ERROR (some msg))] ++
          [Event.dispatch (.SET_IS_FLASHING false),
           Event.dispatch (.SET_FLASH_PROGRESS none)])) := by
    simp [programRun, hr, hc, he, msgOr, hm]
  have herase : eraseFlashRun s r (some msg) =
      [Event.dispatch (.SET_IS_ERASING true), Event.dispatch (.SET_ERROR none),
       Event.engineEraseFlashCall] ++
      ([Event.dispatch (.SET_ERROR (some msg))] ++
        [Event.dispatch (.SET_IS_ERASING false)]) := by
    simp [eraseFlashRun, hr, hc, msgOr, hm]
  refine ⟨?_, ?_, ?_, ?_⟩
  · rw [hprog]; simp
  · rw [hprog, runEvents_append, runEvents_append, runEvents_append]
    rfl
  · rw [herase]; simp
  · rw [herase, runEvents_append, runEvents_append]
    rfl

/-- Witness for the amended C3 on a concrete connected session and a
concrete engine failure. -/
theorem operation_error_transient_witness :
    Event.dispatch (.SET_ERROR (some "flash failed")) ∈
      programRun connState connRefs [] ⟨[], some "flash failed"⟩ ∧
    (runEvents connState
        (eraseFlashRun connState connRefs (some "flash failed"))).error = none := by
  have h := operation_error_transient connState connRefs [] ⟨[], some "flash failed"⟩
    "flash failed" rfl rfl (by decide) rfl
  exact ⟨h.1, h.2.2.2⟩

/-- Claim C10: a disconnect that completes without exception dispatches
RESET_STATE, so afterwards the terminal buffer is empty and the chip is
cleared, while the six configuration fields survive. -/
theorem disconnect_success_resets_terminal (s : ESPLoaderState) (r : Refs)
    (env : DisconnectEnv)
    (h : r.programTransport = false ∨ env.transportDisconnectThrows = none) :
    (runEvents s (disconnectRun r env).1).terminalOutput = [] ∧
    (runEvents s (disconnectRun r env).1).chip = none ∧
    (runEvents s (disconnectRun r env).1).baudrate = s.baudrate ∧
    (runEvents s (disconnectRun r env).1).consoleBaudrate = s.consoleBaudrate ∧
    (runEvents s (disconnectRun r env).1).consoleDataBits = s.consoleDataBits ∧
    (runEvents s (disconnectRun r env).1).consoleStopBits = s.consoleStopBits ∧
    (runEvents s (disconnectRun r env).1).consoleParity = s.consoleParity ∧
    (runEvents s (disconnectRun r env).1).debugLogging = s.debugLogging := by
  rcases r with ⟨pd, pt, ei, cd, ct, cr, k, rip⟩
  rcases env with ⟨tdt, dr⟩
  simp only at h
  rcases h with h | h
  · subst h
    rcases tdt with _ | m <;> rcases pd <;> rcases dr <;>
      simp [disconnectRun, disconnectFinally, runEvents, applyEvent,
        esploaderReducer, initialESPLoaderState]
  · subst h
    rcases pt <;> rcases pd <;> rcases dr <;>
      simp [disconnectRun, disconnectFinally, runEvents, applyEvent,
        esploaderReducer, initialESPLoaderState]

/-- Witness for C10 on a concrete connected session with terminal
output: after a clean disconnect the terminal is empty, the chip is
cleared and the baudrate survives. -/
theorem disconnect_success_resets_terminal_witness :
    (runEvents { connState with terminalOutput := ["hello\n"], baudrate := 921600 }
        (disconnectRun connRefs ⟨none, true⟩).1).terminalOutput = [] ∧
    (runEvents { connState with terminalOutput := ["hello\n"], baudrate := 921600 }
        (disconnectRun connRefs ⟨none, true⟩).1).chip = none ∧
    (runEvents { connState with terminalOutput := ["hello\n"], baudrate := 921600 }
        (disconnectRun connRefs ⟨none, true⟩).1).baudrate = 921600 := by
  have h := disconnect_success_resets_terminal
    { connState with terminalOutput := ["hello\n"], baudrate := 921600 }
    connRefs ⟨none, true⟩ (Or.inr rfl)
  exact ⟨h.1, h.2.1, h.2.2.1⟩

/-- Counterexample to claim C8: when the transport disconnect throws,
the exception message is dispatched into error state, but the finally
dispatch SET_IS_CONNECTED false clears it again, so the state after
disconnect completes has error = none rather than the message. -/
theorem disconnect_error_surfacing_counterexample :
    Event.dispatch (.SET_ERROR (some "boom")) ∈
      (disconnectRun { initialRefs with programTransport := true }
        ⟨some "boom", false⟩).1 ∧
    (runEvents connState
        (disconnectRun { initialRefs with programTransport := true }
          ⟨some "boom", false⟩).1).error = none := by
  decide

/-- Claim C8 amended: every disconnect ends with isConnected false, the
esploader, transport and chip state fields cleared and isLoading false;
a cleanup exception's message is dispatched into error state at the
catch instant but the finally dispatch SET_IS_CONNECTED false clears it,
so the final error is none. -/
theorem disconnect_always_ends_disconnected (s : ESPLoaderState) (r : Refs)
    (env : DisconnectEnv) :
    (runEvents s (disconnectRun r env).1).isConnected = false ∧
    (runEvents s (disconnectRun r env).1).esploader = false ∧
    (runEvents s (disconnectRun r env).1).transport = false ∧
    (runEvents s (disconnectRun r env).1).chip = none ∧
    (runEvents s (disconnectRun r env).1).isLoading = false ∧
    (runEvents s (disconnectRun r env).1).error = none ∧
    (∀ msg, r.programTransport = true → env.transportDisconnectThrows = some msg →
      msg ≠ "" →
      Event.dispatch (.SET_ERROR (some msg)) ∈ (disconnectRun r env).1) := by
  rcases r with ⟨pd, pt, ei, cd, ct, cr, k, rip⟩
  rcases env with ⟨tdt, dr⟩
  rcases pt <;> rcases tdt with _ | m <;> rcases pd <;> rcases dr <;>
    simp [disconnectRun, disconnectFinally, runEvents, applyEvent,
      esploaderReducer, initialESPLoaderState, msgOr]
  all_goals (intro hm; simp [hm])

/-- Witness for the amended C8 on a concrete throwing cleanup. -/
theorem disconnect_always_ends_disconnected_witness :
    (runEvents connState
        (disconnectRun { initialRefs with programTransport := true }
          ⟨some "boom", false⟩).1).isConnected = false ∧
    Event.dispatch (.SET_ERROR (some "boom")) ∈
      (disconnectRun { initialRefs with programTransport := true }
        ⟨some "boom", false⟩).1 := by
  have h := disconnect_always_ends_disconnected connState
    { initialRefs with programTransport := true } ⟨some "boom", false⟩
  exact ⟨h.1, h.2.2.2.2.2.2 "boom" rfl rfl (by decide)⟩

/-- The permission classification of the retry loop (lowercased
substring checks of line 294). -/
def isPermClass (m : String) : Bool :=
  jsIncludes (jsToLower m) "permission" || jsIncludes (jsToLower m) "access denied"

/-- The device-communication classification of the retry loop
(lowercased substring checks of lines 300-304). -/
def isCommClass (m : String) : Bool :=
  jsIncludes (jsToLower m) "timeout" || jsIncludes (jsToLower m) "sync" ||
  jsIncludes (jsToLower m) "invalid data"

/-- Number of handshake attempts in a trace. -/
def mainCount (evs : List Event) : Nat :=
  evs.countP fun e => match e with | .engineMain _ => true | _ => false

lemma retry_mainCount_le (f : Nat → Option String) :
    ∀ n a, mainCount (connectRetryGo f a n).1 ≤ n := by
  intro n
  induction n with
  | zero => intro a; simp [connectRetryGo, mainCount]
  | succ n ih =>
      intro a
      have ihn := ih (a + 1)
      simp only [mainCount] at ihn
      rcases hf : f a with _ | msg <;>
        simp only [connectRetryGo, hf] <;>
        split_ifs <;>
        simp [mainCount, List.countP_append, List.countP_cons] <;>
        omega

/-- Claim C5: the handshake is attempted at most 3 times; when the first
failure is permission-classified the loop aborts after exactly 1
attempt with that error; when every attempt fails with a
communication-classified (timeout/sync/invalid-data) message, exactly 3
attempts run, retry n is preceded by the n-times-1000 ms delay plus the
extra fixed 2000 ms communication delay, and the third failure
propagates. -/
theorem connect_retry_policy (f : Nat → Option String) (m1 m2 m3 : String) :
    mainCount (connectRetry f).1 ≤ 3 ∧
    (f 1 = some m1 → isPermClass m1 = true →
      connectRetry f = ([Event.engineMain 1], some m1)) ∧
    (f 1 = some m1 → f 2 = some m2 → f 3 = some m3 →
      isCommClass m1 = true → isPermClass m1 = false →
      isCommClass m2 = true → isPermClass m2 = false →
      connectRetry f =
        ([Event.engineMain 1, Event.delay 2000, Event.delay 2000,
          Event.engineMain 2, Event.delay 2000, Event.delay 3000,
          Event.engineMain 3], some m3)) ∧
    (f 1 = some m1 → f 2 = some m2 →
      isCommClass m1 = true → isPermClass m1 = false →
      isPermClass m2 = true →
      connectRetry f =
        ([Event.engineMain 1, Event.delay 2000, Event.delay 2000,
          Event.engineMain 2], some m2)) := by
  refine ⟨retry_mainCount_le f 3 1, ?_, ?_, ?_⟩
  · intro h1 hperm
    simp only [isPermClass] at hperm
    simp [connectRetry, connectRetryGo, maxRetries, h1, hperm]
  · intro h1 h2 h3 hc1 hp1 hc2 hp2
    simp only [isCommClass] at hc1 hc2
    simp only [isPermClass] at hp1 hp2
    simp [connectRetry, connectRetryGo, maxRetries, h1, h2, h3, hc1, hp1, hc2, hp2]
  · intro h1 h2 hc1 hp1 hp2
    simp only [isCommClass] at hc1
    simp only [isPermClass] at hp1 hp2
    simp [connectRetry, connectRetryGo, maxRetries, h1, h2, hc1, hp1, hp2]

/-- Witness for C5: a persistent timeout performs exactly the 3-attempt
trace with increasing delays; a permission failure aborts at once. -/
theorem connect_retry_policy_witness :
    connectRetry (fun _ => some "Connection timeout") =
      ([Event.engineMain 1, Event.delay 2000, Event.delay 2000,
        Event.engineMain 2, Event.delay 2000, Event.delay 3000,
        Event.engineMain 3], some "Connection timeout") ∧
    connectRetry (fun _ => some "Permission denied") =
      ([Event.engineMain 1], some "Permission denied") := by
  have h1 := connect_retry_policy (fun _ => some "Connection timeout")
    "Connection timeout" "Connection timeout" "Connection timeout"
  have h2 := connect_retry_policy (fun _ => some "Permission denied")
    "Permission denied" "" ""
  exact ⟨h1.2.2.1 rfl rfl rfl (by decide) (by decide) (by decide) (by decide),
         h2.2.1 rfl (by decide)⟩

/-- The SET_ERROR payloads dispatched along a trace, in order. -/
def setErrorPayloads (evs : List Event) : List (Option String) :=
  evs.filterMap fun e =>
    match e with
    | .dispatch (.SET_ERROR p) => some p
    | _ => none

/-- A connect environment whose handshake always fails with the message
boom. -/
def connectEnvFail : ConnectEnv :=
  { connectEnvOk with mainOutcome := fun _ => some "boom" }

/-- Counterexample to claim C4: a connect whose handshake attempts all
fail with the message boom dispatches only the raw message (never a
multi-line remediation text: the category block of lines 311-381 sits
behind a catch of an already-resolved promise and is unreachable), and
even that message is erased by the following connected-false dispatch,
so the state after the call has error = none; the call returns the
empty string. -/
theorem connect_failure_counterexample :
    (connectRun initialESPLoaderState initialRefs connectEnvFail).2.2 = "" ∧
    setErrorPayloads (connectRun initialESPLoaderState initialRefs connectEnvFail).1 =
      [none, some "boom"] ∧
    (runEvents initialESPLoaderState
        (connectRun initialESPLoaderState initialRefs connectEnvFail).1).error
      = none := by
  decide

/-- The program-mode refs as populated by connect before the
handshake (lines 248-267). -/
def withProgramRefs (r : Refs) : Refs :=
  { r with
      programDevice := true, programTransport := true, esploaderInstance := true }

lemma connectCatch_run_error (s : ESPLoaderState) (r : Refs) (env : ConnectEnv)
    (msg : String) :
    (runEvents s ((connectCatch r env msg).1 ++
      [Event.dispatch (.SET_IS_LOADING false)])).error = none := by
  rcases hpt : r.programTransport <;> rcases hpd : r.programDevice <;>
    rcases hdr : env.cleanupDeviceReadable <;> rcases hcl : env.cleanupCloseThrows <;>
    simp [connectCatch, hpt, hpd, hdr, hcl, runEvents, applyEvent, esploaderReducer]

/-- Claim C4 amended: for every connect whose handshake fails after the
retries, the outer handler substitutes a brief single-line user message
(connectUserMessage; the multi-line category remediation block is
unreachable), dispatches it and then connected-false — which clears
error again, so the state after the call completes has error = none —
always disconnects the transport and closes the open port with
secondary failures tolerated, clears the three program-mode refs, and
returns the empty string. -/
theorem connect_failure_cleanup (s : ESPLoaderState) (r : Refs) (env : ConnectEnv)
    (m : String)
    (hs : env.serialAvailable = true)
    (hp : env.portToUse = true ∨ env.portOutcome = .selected)
    (hm : (connectRetry env.mainOutcome).2 = some m) (hm0 : m ≠ "") :
    (connectRun s r env).2.2 = "" ∧
    (connectRun s r env).2.1.programDevice = false ∧
    (connectRun s r env).2.1.programTransport = false ∧
    (connectRun s r env).2.1.esploaderInstance = false ∧
    Event.dispatch (.SET_ERROR (some (connectUserMessage m))) ∈ (connectRun s r env).1 ∧
    Event.programTransportDisconnect ∈ (connectRun s r env).1 ∧
    (env.cleanupDeviceReadable = true →
      Event.programPortClose ∈ (connectRun s r env).1) ∧
    (runEvents s (connectRun s r env).1).error = none := by
  have hport : (if env.portToUse then PortOutcome.selected else env.portOutcome)
      = PortOutcome.selected := by
    rcases hp with hp | hp <;> simp [hp]
  have hbody : ∀ r2 : Refs, connectBody r2 env =
      ((if env.portToUse then [] else [Event.requestPortCall]) ++
        ((connectRetry env.mainOutcome).1 ++
          ((connectCatch (withProgramRefs r2) env m).1 ++
            [Event.dispatch (.SET_IS_LOADING false)])),
       (connectCatch (withProgramRefs r2) env m).2, "") := by
    intro r2
    simp [connectBody, withProgramRefs, hs, hport, hm, List.append_assoc]
  have hrun : connectRun s r env =
      (loadErrPre ++
        ((if s.isConsoleConnected then stopConsoleRun r env.stopEnv
          else (([] : List Event), r)).1 ++
         (connectBody (if s.isConsoleConnected then stopConsoleRun r env.stopEnv
          else (([] : List Event), r)).2 env).1),
       (connectBody (if s.isConsoleConnected then stopConsoleRun r env.stopEnv
          else (([] : List Event), r)).2 env).2.1,
       (connectBody (if s.isConsoleConnected then stopConsoleRun r env.stopEnv
          else (([] : List Event), r)).2 env).2.2) := by
    simp [connectRun, loadErrPre, List.append_assoc]
  set st := if s.isConsoleConnected then stopConsoleRun r env.stopEnv
    else (([] : List Event), r) with hst
  have hmem : Event.dispatch (.SET_ERROR (some (connectUserMessage m))) ∈
      (connectCatch (withProgramRefs st.2) env m).1 := by
    simp [connectCatch, msgOr, hm0]
  refine ⟨?_, ?_, ?_, ?_, ?_, ?_, ?_, ?_⟩
  · rw [hrun, hbody st.2]
  · rw [hrun, hbody st.2]
    simp [connectCatch, withProgramRefs]
  · rw [hrun, hbody st.2]
    simp [connectCatch, withProgramRefs]
  · rw [hrun, hbody st.2]
    simp [connectCatch, withProgramRefs]
  · rw [hrun, hbody st.2]
    simp only [List.mem_append]
    exact Or.inr (Or.inr (Or.inr (Or.inr (Or.inl hmem))))
  · rw [hrun, hbody st.2]
    simp [connectCatch, withProgramRefs]
  · intro hdr
    rw [hrun, hbody st.2]
    rcases hcl : env.cleanupCloseThrows <;>
      simp [connectCatch, withProgramRefs, hdr, hcl]
  · rw [hrun, hbody st.2]
    simp only []
    rw [runEvents_append, runEvents_append, runEvents_append, runEvents_append]
    exact connectCatch_run_error _ _ env m

/-- Witness for the amended C4 on the concrete always-failing connect. -/
theorem connect_failure_cleanup_witness :
    (connectRun initialESPLoaderState initialRefs connectEnvFail).2.2 = "" ∧
    Event.dispatch (.SET_ERROR (some "boom")) ∈
      (connectRun initialESPLoaderState initialRefs connectEnvFail).1 ∧
    (runEvents initialESPLoaderState
        (connectRun initialESPLoaderState initialRefs connectEnvFail).1).error
      = none := by
  have h := connect_failure_cleanup initialESPLoaderState initialRefs connectEnvFail
    "boom" rfl (Or.inr rfl) (by decide) (by decide)
  refine ⟨h.1, ?_, h.2.2.2.2.2.2.2⟩
  have hb : connectUserMessage "boom" = "boom" := by decide
  have := h.2.2.2.2.1
  rwa [hb] at this

end EsptoolReact
